import Mathlib

/-!
Verification development for the OLOGRAM plugin of pygtftk
(src/pygtftk/plugins/ologram.py).

The `ologram` command function is shallowly embedded below: its sequential
configuration checks, the inclusion/exclusion mask resolution, the peak-file
preparation, the --more-bed label validation, the p-value display formatting
and the TSV table writer are translated directly from the Python source.
The Monte-Carlo statistics engine (pygtftk.stats.intersect) is external to
the plugin sources; the few facts needed about it are modelled from the
specification and marked as such in their doc comments.
-/

-- ---------------------------------------------------------------------------
-- Genomic intervals (BED-like, half-open [start, stop))
-- ---------------------------------------------------------------------------

/-- A BED-like genomic interval: chromosome name, 0-based half-open coordinates. -/
structure GenomicInterval where
  chrom : String
  start : Nat
  stop : Nat
deriving DecidableEq, Repr

/-- Message severity levels of pygtftk's `message` utility.  In pygtftk, a
message of type ERROR aborts the run; the other levels are non-fatal. -/
inductive MsgType where
  | info
  | warning
  | debug
  | error
deriving DecidableEq, Repr

/-- A message emitted through pygtftk's `message` utility. -/
structure Msg where
  text : String
  mtype : MsgType
deriving DecidableEq, Repr

-- ---------------------------------------------------------------------------
-- List/char helpers used to embed the Python string operations
-- ---------------------------------------------------------------------------

/-- ASCII alphanumeric test, the character class `[A-Za-z0-9]`. -/
def isAlnumChar (c : Char) : Bool :=
  (decide ('A' ≤ c) && decide (c ≤ 'Z')) ||
  (decide ('a' ≤ c) && decide (c ≤ 'z')) ||
  (decide ('0' ≤ c) && decide (c ≤ '9'))

/-- Substring test over char lists (the semantics of a Python `in` /
regex-lookahead occurrence check). -/
def listIsInfix (pat : List Char) : List Char → Bool
  | [] => pat.isEmpty
  | c :: rest => pat.isPrefixOf (c :: rest) || listIsInfix pat rest

/-- Python `os.path.basename`: the part after the last slash. -/
def basenameL (l : List Char) : List Char :=
  (l.splitOn '/').getLastD l

/-- The finite set of suffixes matched by the Python regex
`_converted\.[Bb][Ee][Dd][3456]{0,1}$` of ologram.py, digit variants first so
that the greedy (longest) match is preferred. -/
def convertedSuffixes : List String :=
  (["B", "b"].flatMap fun b =>
    ["E", "e"].flatMap fun e =>
      ["D", "d"].flatMap fun d =>
        ["3", "4", "5", "6", ""].map fun n => "_converted." ++ b ++ e ++ d ++ n)

/-- `re.sub("_converted\.[Bb][Ee][Dd][3456]{0,1}$", "", name)`: strip a
trailing `_converted.bed`-style marker (case-insensitive extension, optional
digit) if present. -/
def stripConvertedL (l : List Char) : List Char :=
  match convertedSuffixes.find? (fun suf => suf.toList.isSuffixOf l) with
  | some suf => l.take (l.length - suf.toList.length)
  | none => l

/-- `re.sub("_pygtftk_?((?!pygtftk).)*$", "", name)`: truncate at the leftmost
occurrence of `_pygtftk` that is not followed by any later `pygtftk`; the
negative lookahead means the tail consumed to the end of the string may not
contain another `pygtftk`. -/
def stripPygtftkL (l : List Char) : List Char :=
  match (List.range (l.length + 1)).find? (fun p =>
      "_pygtftk".toList.isPrefixOf (l.drop p) &&
      ! listIsInfix "pygtftk".toList ((l.drop p).drop 8)) with
  | some p => l.take p
  | none => l

/-- `re.sub("[^A-Za-z0-9]+", "_", name)`: replace every maximal run of
non-alphanumeric characters by a single underscore.  The boolean argument
records whether the previous character was part of such a run. -/
def squashAux : List Char → Bool → List Char
  | [], _ => []
  | c :: rest, prevRep =>
    if isAlnumChar c then c :: squashAux rest false
    else if prevRep then squashAux rest true
    else '_' :: squashAux rest true

/-- Replace maximal runs of non-alphanumeric characters by `_`. -/
def squashNonAlnum (l : List Char) : List Char := squashAux l false

/-- The default --more-bed label computed by ologram.py (lines 836-845) when
--more-bed-labels is omitted: basename, strip a `_converted.bed` marker,
strip a `_pygtftk...` suffix, then replace non-alphanumeric runs by `_`. -/
def cleanedLabel (s : String) : String :=
  ⟨squashNonAlnum (stripPygtftkL (stripConvertedL (basenameL s.toList)))⟩

/-- The default-label rule as worded by the claim under scrutiny: the cleaned
base name with non-alphanumeric characters replaced by `_` (no suffix
stripping).  Kept separate from `cleanedLabel`, which follows the source. -/
def claimDefaultLabel (s : String) : String :=
  ⟨squashNonAlnum (basenameL s.toList)⟩

/-- `re.search("^[A-Za-z0-9_]+$", label)` of ologram.py line 815: nonempty and
every character alphanumeric or underscore. -/
def labelOk (s : String) : Bool :=
  ! s.toList.isEmpty && s.toList.all (fun c => isAlnumChar c || c == '_')

/-- Python `str.split(",")` (never returns an empty list). -/
def splitCommas (s : String) : List String :=
  (s.toList.splitOn ',').map (fun cs => ⟨cs⟩)

-- ---------------------------------------------------------------------------
-- Interval arithmetic (the pybedtools operations used by ologram.py)
-- ---------------------------------------------------------------------------

/-- Lexicographic comparison of char lists by code point. -/
def charListLt : List Char → List Char → Bool
  | [], [] => false
  | [], _ :: _ => true
  | _ :: _, [] => false
  | a :: as, b :: bs =>
    if a.val < b.val then true
    else if b.val < a.val then false
    else charListLt as bs

/-- BED ordering: by chromosome name, then start, then stop. -/
def intervalLE (a b : GenomicInterval) : Bool :=
  if a.chrom == b.chrom then
    if a.start == b.start then decide (a.stop ≤ b.stop)
    else decide (a.start < b.start)
  else charListLt a.chrom.toList b.chrom.toList

/-- Insert into a list sorted by `intervalLE`. -/
def insertIv (x : GenomicInterval) : List GenomicInterval → List GenomicInterval
  | [] => [x]
  | y :: ys => if intervalLE x y then x :: y :: ys else y :: insertIv x ys

/-- `BedTool.sort()`: sort by chromosome, then start, then stop. -/
def sortIntervals (l : List GenomicInterval) : List GenomicInterval :=
  l.foldr insertIv []

/-- Helper of `mergeSorted`: merge the current interval with the following
ones while they overlap or are book-ended on the same chromosome. -/
def mergeSortedAux (cur : GenomicInterval) :
    List GenomicInterval → List GenomicInterval
  | [] => [cur]
  | y :: rest =>
    if cur.chrom == y.chrom && decide (y.start ≤ cur.stop) then
      mergeSortedAux ⟨cur.chrom, cur.start, max cur.stop y.stop⟩ rest
    else cur :: mergeSortedAux y rest

/-- `BedTool.merge()` on a sorted input: merge overlapping or book-ended
intervals of the same chromosome. -/
def mergeSorted : List GenomicInterval → List GenomicInterval
  | [] => []
  | x :: rest => mergeSortedAux x rest

/-- `.sort().merge()` as applied to the peak file at ologram.py line 717. -/
def sortMerge (l : List GenomicInterval) : List GenomicInterval :=
  mergeSorted (sortIntervals l)

/-- Remove from the segment `[s, e)` the parts covered by `[bs, be)`. -/
def cutSeg (seg : Nat × Nat) (b : Nat × Nat) : List (Nat × Nat) :=
  if decide (b.2 ≤ seg.1) || decide (seg.2 ≤ b.1) then [seg]
  else
    (if decide (seg.1 < b.1) then [(seg.1, b.1)] else []) ++
    (if decide (b.2 < seg.2) then [(b.2, seg.2)] else [])

/-- Remove from `[s, e)` all parts covered by the given segments. -/
def subtractSegs (s e : Nat) (bs : List (Nat × Nat)) : List (Nat × Nat) :=
  bs.foldl (fun segs b => segs.flatMap (fun seg => cutSeg seg b)) [(s, e)]

/-- `BedTool.subtract`: remove, from every interval of `A`, the parts covered
by intervals of `B` on the same chromosome. -/
def subtractBed (A B : List GenomicInterval) : List GenomicInterval :=
  A.flatMap (fun a =>
    (subtractSegs a.start a.stop
        ((B.filter (fun b => b.chrom == a.chrom)).map (fun b => (b.start, b.stop)))).map
      (fun se => ⟨a.chrom, se.1, se.2⟩))

/-- Total excluded length on chromosome `c` strictly below coordinate `x`
(for a merged mask within chromosome bounds). -/
def excludedLenBefore (excl : List GenomicInterval) (c : String) (x : Nat) : Nat :=
  ((excl.filter (fun i => i.chrom == c)).map
    (fun i => min i.stop x - min i.start x)).sum

/-- Modelled from the spec: `read_bed.exclude_chromsizes` of
pygtftk.stats.intersect.read_bed (not under src/) shortens every chromosome
length by the excluded length on that chromosome; as the source comment at
ologram.py lines 744-745 states, only the values of the map are modified,
never its keys. -/
def exclude_chromsizes (excl : List GenomicInterval)
    (cl : List (String × Nat)) : List (String × Nat) :=
  cl.map (fun p => (p.1, p.2 - excludedLenBefore excl p.1 p.2))

/-- Modelled from the spec: `read_bed.exclude_concatenate` of
pygtftk.stats.intersect.read_bed (not under src/) subtracts the exclusion
mask from an interval set and remaps the remains onto the concatenated
sub-genome obtained by removing the excluded regions. -/
def exclude_concatenate (peaks excl : List GenomicInterval) :
    List GenomicInterval :=
  (subtractBed peaks excl).map (fun i =>
    ⟨i.chrom, i.start - excludedLenBefore excl i.chrom i.start,
      i.stop - excludedLenBefore excl i.chrom i.stop⟩)

-- ---------------------------------------------------------------------------
-- The `ologram` command function: arguments and sequential checks
-- ---------------------------------------------------------------------------

/-- The arguments of the `ologram` command function that the embedded phases
read, together with the environment facts the Python code obtains from its
collaborators: `availableCores` is `multiprocessing.cpu_count()`, `chrom_len`
is the parsed chromInfo map (`chrom_info_as_dict`), `peaks` the parsed peak
file, `gtf_chroms` the chromosome list of the GTF, and
`gtf_nonempty_after_subset` whether the GTF still has records after
restriction to the chromInfo chromosomes.  `featureBeds` abstracts the
labelled reference interval sets (GTF features and --more-bed files) that the
statistics loop iterates over. -/
structure Args where
  use_markov : Bool
  nb_threads : Nat
  availableCores : Nat
  more_bed : Option (List String)
  more_bed_labels : Option String
  more_bed_multiple_overlap : Bool
  multiple_overlap_target_combi_size : Int
  multiple_overlap_max_number_of_combinations : Int
  multiple_overlap_custom_combis : Option String
  no_gtf : Bool
  more_keys : Option String
  no_basic_feature : Bool
  inputfile : Option String
  chrom_info : Option String
  chrom_len : List (String × Nat)
  peaks : List GenomicInterval
  force_chrom_peak : Bool
  gtf_chroms : List String
  force_chrom_gtf : Bool
  gtf_nonempty_after_subset : Bool
  bed_excl : Option (List GenomicInterval)
  bed_incl : Option (List GenomicInterval)
  featureBeds : List (String × List GenomicInterval)

/-- The two messages of ologram.py lines 582-586 (Markov mode notice). -/
def markovMsgs : List Msg :=
  [⟨"Using Markov order 2 shuffling.", MsgType.info⟩,
   ⟨"Markov-based null is still in beta at the moment and tends to biais the null hypothesis towards association.", MsgType.warning⟩]

/-- The warning of ologram.py lines 588-594, emitted when fewer threads than
available cores are requested. -/
def threadWarnMsg (n cores : Nat) : Msg :=
  ⟨"Using only " ++ toString n ++ " threads, but " ++ toString cores ++
    " cores are available. Consider changing the --nb-threads parameter.",
   MsgType.warning⟩

/-- ologram.py lines 578-594: the unconditional initial notices (Markov
warning, thread-count warning). -/
def initialWarnings (a : Args) : List Msg :=
  (if a.use_markov then markovMsgs else []) ++
  (if a.nb_threads < a.availableCores then
    [threadWarnMsg a.nb_threads a.availableCores] else [])

/-- ologram.py lines 601-611: fatal error if multiple overlap is requested
without --more-bed; notices that the sizing options are ignored outside
multiple-overlap mode. -/
def multipleOverlapCheck (a : Args) : Except Msg (List Msg) :=
  if a.more_bed_multiple_overlap && a.more_bed == none then
    Except.error ⟨"Multiple overlaps (--more-bed-multiple-overlap) are only computed with the query and user-defined regions : please provide those with the --more-bed argument.", MsgType.error⟩
  else
    Except.ok
      (if ! a.more_bed_multiple_overlap then
        (if a.multiple_overlap_target_combi_size ≠ -1 then
          [⟨"--multiple-overlap-target-combi-size is ignored when not working with multiple overlaps (--more-bed-multiple-overlap).", MsgType.info⟩]
         else []) ++
        (if a.multiple_overlap_max_number_of_combinations ≠ -1 then
          [⟨"--multiple-overlap-max-number-of-combinations is ignored when not working with multiple overlaps (--more-bed-multiple-overlap).", MsgType.info⟩]
         else [])
       else [])

/-- Notice of ologram.py line 617. -/
def mocsIgnoredMsg : Msg :=
  ⟨"--multiple-overlap-target-combi-size is ignored when custom combinations are enforced (with --multiple-overlap-custom-combis).", MsgType.info⟩

/-- Notice of ologram.py line 619. -/
def moncIgnoredMsg : Msg :=
  ⟨"--multiple-overlap-max-number-of-combinations is ignored when custom combinations are enforced (with --multiple-overlap-custom-combis)", MsgType.info⟩

/-- Fatal error of ologram.py lines 621-623. -/
def customWithoutMoMsg : Msg :=
  ⟨"Cannot use --multiple-overlap-custom-combis without the argument --more-bed-multiple-overlap.", MsgType.error⟩

/-- ologram.py lines 614-623: when custom combinations are enforced, the two
sizing/pruning options are reported as ignored through plain (non-fatal)
messages; only the absence of --more-bed-multiple-overlap is fatal. -/
def customCombisChecks (mocs monc : Int) (custom : Option String)
    (mo : Bool) : Except Msg (List Msg) :=
  match custom with
  | none => Except.ok []
  | some _ =>
    let w := (if mocs ≠ -1 then [mocsIgnoredMsg] else []) ++
             (if monc ≠ -1 then [moncIgnoredMsg] else [])
    if ! mo then Except.error customWithoutMoMsg else Except.ok w

/-- ologram.py lines 629-638: checks tied to --no-gtf. -/
def noGtfChecks (a : Args) : Except Msg Unit :=
  if a.no_gtf then
    if a.more_keys ≠ none then
      Except.error ⟨"If --more-keys should be used with a GTF.", MsgType.error⟩
    else if a.no_basic_feature then
      Except.error ⟨"If --no-basic-feature should be used with a GTF.", MsgType.error⟩
    else if a.more_bed == none then
      Except.error ⟨"If --no-gtf is set to True provide --more-bed.", MsgType.error⟩
    else Except.ok ()
  else Except.ok ()

/-- ologram.py lines 645-662: checks tied to --no-basic-feature. -/
def basicFeatureChecks (a : Args) : Except Msg Unit :=
  if a.no_basic_feature then
    match a.more_keys with
    | some _ =>
      if a.inputfile == none then
        Except.error ⟨"If --more-keys is set you should provide a GTF", MsgType.error⟩
      else Except.ok ()
    | none =>
      if a.more_bed == none then
        Except.error ⟨"If --no-genomic-feature is set to True provide --more-keys or --more-bed.", MsgType.error⟩
      else Except.ok ()
  else
    if a.inputfile == none then
      Except.error ⟨"Please provide a GTF.", MsgType.error⟩
    else if a.chrom_info == none then
      Except.error ⟨"Please provide a chromInfo file (--chrom-info)", MsgType.error⟩
    else Except.ok ()

/-- The key list of the chromosome-size map. -/
def chromLenKeys (cl : List (String × Nat)) : List String := cl.map Prod.fst

/-- ologram.py lines 682-717: check that every peak chromosome is declared in
chrom-info (or, under --force-chrom-peak, filter the peaks and fail when
nothing remains), then sort and merge the peak file. -/
def peakPhase (a : Args) : Except Msg (List GenomicInterval) :=
  if ! a.force_chrom_peak then
    match (a.peaks.map (fun i => i.chrom)).find?
        (fun c => ! (chromLenKeys a.chrom_len).contains c) with
    | some c =>
      Except.error ⟨"Chromosome " ++ c ++ " from peak file is undefined in --chrom-info file. Please fix or use --force-chrom-peak.", MsgType.error⟩
    | none => Except.ok (sortMerge a.peaks)
  else
    let kept := a.peaks.filter (fun i => (chromLenKeys a.chrom_len).contains i.chrom)
    if kept.length == 0 then
      Except.error ⟨"The --peak-file file does not contain any genomic feature falling in chromosomes declared in --chrom-info.", MsgType.error⟩
    else Except.ok (sortMerge kept)

/-- ologram.py lines 736-739: the fake BED covering the entire genome, one
interval per chromInfo chromosome, skipping the pseudo-chromosome entry
`all_chrom` that `chrom_info_as_dict` adds. -/
def fullGenomeBed (cl : List (String × Nat)) : List GenomicInterval :=
  cl.filterMap (fun p =>
    if p.1 == "all_chrom" then none else some ⟨p.1, 0, p.2⟩)

/-- Fatal error of ologram.py lines 732-734. -/
def cannotBothMsg : Msg :=
  ⟨"Cannot specify both --bed_incl and --bed_excl", MsgType.error⟩

/-- ologram.py lines 731-741: an inclusion mask is turned into the exclusion
mask obtained by subtracting it from the full genome; supplying both masks is
a fatal error. -/
def resolveExclusion (cl : List (String × Nat))
    (incl excl : Option (List GenomicInterval)) :
    Except Msg (Option (List GenomicInterval)) :=
  match incl with
  | some inclBed =>
    match excl with
    | some _ => Except.error cannotBothMsg
    | none => Except.ok (some (subtractBed (fullGenomeBed cl) inclBed))
  | none => Except.ok excl

/-- ologram.py lines 747-758: when an exclusion mask is present it is sorted
and merged, the chromosome sizes are shortened and the (already sorted and
merged) peak file is rewritten onto the concatenated sub-genome.  Returns the
final chromosome-size map, query set and exclusion mask. -/
def applyExclusion (cl : List (String × Nat)) (q : List GenomicInterval)
    (ex : Option (List GenomicInterval)) :
    List (String × Nat) × List GenomicInterval × Option (List GenomicInterval) :=
  match ex with
  | none => (cl, q, none)
  | some e0 =>
    let e := sortMerge e0
    (exclude_chromsizes e cl, exclude_concatenate q e, some e)

/-- Fatal error of ologram.py lines 799-802. -/
def gtfEmptyMsg : Msg :=
  ⟨"The GTF file does not contain any genomic feature falling in chromosomes declared in --chrom-info.", MsgType.error⟩

/-- ologram.py lines 777-802: when a GTF is read (basic features or
--more-keys requested), its chromosomes must be declared in chrom-info
(unless --force-chrom-gtf) and the subset GTF must be nonempty. -/
def gtfPhase (a : Args) (cl : List (String × Nat)) : Except Msg Unit :=
  if ! a.no_gtf && (! a.no_basic_feature || a.more_keys ≠ none) then
    if ! a.force_chrom_gtf then
      match a.gtf_chroms.find? (fun c => ! (chromLenKeys cl).contains c) with
      | some c =>
        Except.error ⟨"Chromosome " ++ c ++ " from GTF is undefined in --chrom-info file. Please check your --chrom-info file or use --force-chrom-gtf", MsgType.error⟩
      | none =>
        if ! a.gtf_nonempty_after_subset then Except.error gtfEmptyMsg
        else Except.ok ()
    else
      if ! a.gtf_nonempty_after_subset then Except.error gtfEmptyMsg
      else Except.ok ()
  else Except.ok ()

/-- Fatal error of ologram.py lines 817-819 (the exact source text quotes the
underscore character). -/
def labelCharErrMsg : Msg :=
  ⟨"Only alphanumeric characters and underscore allowed for --more-bed-labels", MsgType.error⟩

/-- Fatal error of ologram.py lines 820-824. -/
def labelCountErrMsg : Msg :=
  ⟨"--more-bed-labels: the number of labels should be the same as the number of bed files (see --more-bed-labels).", MsgType.error⟩

/-- Fatal error of ologram.py lines 826-827. -/
def labelDupErrMsg : Msg :=
  ⟨"Redundant labels not allowed.", MsgType.error⟩

/-- Warning of ologram.py lines 830-832. -/
def labelDefaultWarnMsg : Msg :=
  ⟨"--more-bed-labels was not set, automatically defaulting to --more-bed file names.", MsgType.warning⟩

/-- ologram.py lines 808-847: validate the user-supplied --more-bed-labels
(character set of every label, count, pairwise distinctness, in this order),
or default every label to the cleaned file base name with a non-fatal
warning. -/
def moreBedLabelsResolve (files : List String) (labels : Option String) :
    Except Msg (List Msg × List String) :=
  match labels with
  | some s =>
    let ls := splitCommas s
    if ls.any (fun l => ! labelOk l) then Except.error labelCharErrMsg
    else if ls.length ≠ files.length then Except.error labelCountErrMsg
    else if ls.length ≠ ls.eraseDups.length then Except.error labelDupErrMsg
    else Except.ok ([], ls)
  | none => Except.ok ([labelDefaultWarnMsg], files.map cleanedLabel)

/-- ologram.py lines 808-847 entered only when --more-bed is supplied:
resolve the labels of the --more-bed files. -/
def labelsStep (a : Args) : Except Msg (List Msg × List String) :=
  match a.more_bed with
  | some files => moreBedLabelsResolve files a.more_bed_labels
  | none => Except.ok ([], [])

/-- The run-level state handed to the statistics loop once every
configuration check has passed. -/
structure Prepared where
  warnings : List Msg
  chrom_len : List (String × Nat)
  query : List GenomicInterval
  bed_excl : Option (List GenomicInterval)
  labels : List String
deriving DecidableEq, Repr

/-- The configuration phase of the `ologram` command function (ologram.py
lines 578-847), in source order: initial notices, multiple-overlap and
custom-combination checks, --no-gtf and --no-basic-feature checks, peak-file
chromosome check plus sort/merge, inclusion/exclusion resolution and
application, GTF chromosome check, --more-bed label resolution.  The first
ERROR message aborts the run (pygtftk's `message` exits on type ERROR). -/
def ologramChecks (a : Args) : Except Msg Prepared :=
  Except.bind (multipleOverlapCheck a) (fun w1 =>
  Except.bind (customCombisChecks a.multiple_overlap_target_combi_size
      a.multiple_overlap_max_number_of_combinations
      a.multiple_overlap_custom_combis a.more_bed_multiple_overlap) (fun w2 =>
  Except.bind (noGtfChecks a) (fun _ =>
  Except.bind (basicFeatureChecks a) (fun _ =>
  Except.bind (peakPhase a) (fun q =>
  Except.bind (resolveExclusion a.chrom_len a.bed_incl a.bed_excl) (fun ex =>
  let r := applyExclusion a.chrom_len q ex
  Except.bind (gtfPhase a r.1) (fun _ =>
  Except.bind (labelsStep a) (fun lw =>
      Except.ok ⟨initialWarnings a ++ w1 ++ w2 ++ lw.1, r.1, r.2.1, r.2.2, lw.2⟩))))))))

-- ---------------------------------------------------------------------------
-- Statistics records and the TSV table writer
-- ---------------------------------------------------------------------------

/-- The six per-statistic output fields, in the order fixed by the
--sort-features choices of ologram.py lines 483-499 and by the column indices
asserted in the BATS tests at the end of ologram.py. -/
def statFields (statname : String) : List String :=
  [statname ++ "_expectation_shuffled",
   statname ++ "_variance_shuffled",
   statname ++ "_negbinom_fit_quality",
   statname ++ "_log2_fold_change",
   statname ++ "_true",
   statname ++ "_pvalue"]

/-- Modelled from the spec: the ordered key list of the per-feature record
returned by `compute_overlap_stats` (pygtftk.stats.intersect, not under
src/): the six fields for the intersection-count statistic N followed by the
six fields for the summed-overlap statistic S, as listed by the
--sort-features choices of ologram.py and pinned down by the BATS test column
indices. -/
def computeOverlapStatsKeys : List String :=
  statFields "nb_intersections" ++ statFields "summed_bp_overlaps"

/-- Overlap length in base pairs of two intervals,
`max(0, min(end_a, end_b) - max(start_a, start_b))` (truncated subtraction). -/
def pairOverlap (a b : GenomicInterval) : Nat :=
  if a.chrom == b.chrom then min a.stop b.stop - max a.start b.start else 0

/-- True N: number of intersecting (query, reference) pairs. -/
def trueN (q ref : List GenomicInterval) : Nat :=
  (q.map (fun a => (ref.filter (fun b => decide (0 < pairOverlap a b))).length)).sum

/-- True S: summed overlapping base pairs over all pairs. -/
def trueS (q ref : List GenomicInterval) : Nat :=
  (q.map (fun a => ((ref.map (fun b => pairOverlap a b))).sum)).sum

/-- Modelled from the spec: the record `compute_overlap_stats` (not under
src/) produces for one feature: the key list `computeOverlapStatsKeys`; the
two true statistics are computed from the data, while the shuffle-derived
quantities (expectations, variances, fit qualities, p-values, fold changes)
come from the Monte-Carlo engine and are abstracted as an opaque rendering. -/
def overlapStatsRecord (q ref : List GenomicInterval) :
    List (String × String) :=
  [("nb_intersections_expectation_shuffled", "shuffle_derived"),
   ("nb_intersections_variance_shuffled", "shuffle_derived"),
   ("nb_intersections_negbinom_fit_quality", "shuffle_derived"),
   ("nb_intersections_log2_fold_change", "shuffle_derived"),
   ("nb_intersections_true", toString (trueN q ref)),
   ("nb_intersections_pvalue", "shuffle_derived"),
   ("summed_bp_overlaps_expectation_shuffled", "shuffle_derived"),
   ("summed_bp_overlaps_variance_shuffled", "shuffle_derived"),
   ("summed_bp_overlaps_negbinom_fit_quality", "shuffle_derived"),
   ("summed_bp_overlaps_log2_fold_change", "shuffle_derived"),
   ("summed_bp_overlaps_true", toString (trueS q ref)),
   ("summed_bp_overlaps_pvalue", "shuffle_derived")]

/-- ologram.py lines 1164-1189: print the `hits` dictionary as a tab-separated
table, a header line `feature_type` plus the first record's keys, then one
line per feature holding the label and the record's values. -/
def writeStatsTable (hits : List (String × List (String × String))) :
    List String :=
  match hits with
  | [] => []
  | (_, r0) :: _ =>
    (String.intercalate "\t" ("feature_type" :: r0.map Prod.fst)) ::
    hits.map (fun fr =>
      String.intercalate "\t" (fr.1 :: fr.2.map Prod.snd))

/-- The result of a completed run: the query set the statistics loop used,
the per-feature records, and the TSV lines. -/
structure RunOutput where
  queryUsed : List GenomicInterval
  hits : List (String × List (String × String))
  tsv : List String
deriving DecidableEq, Repr

/-- Fatal error of ologram.py lines 1159-1160. -/
def noFeatureMsg : Msg := ⟨"No feature found.", MsgType.error⟩

/-- The embedded run: configuration phase, then the statistics loop, which
computes one record per labelled reference set, all against the single
prepared query set, and writes the table. -/
def ologramRun (a : Args) : Except Msg RunOutput :=
  Except.bind (ologramChecks a) (fun prep =>
    let hs := a.featureBeds.map (fun fb => (fb.1, overlapStatsRecord prep.query fb.2))
    if hs.length == 0 then Except.error noFeatureMsg
    else Except.ok ⟨prep.query, hs, writeStatsTable hs⟩)

-- ---------------------------------------------------------------------------
-- P-value display sentinels (bar-plot labels and volcano plot)
-- ---------------------------------------------------------------------------

/-- `format_pvalue` of ologram.py lines 1312-1319: a p-value of exactly 0 is
rendered as the precision-limit floor, the sentinel -1 as not applicable;
other values are printed numerically (the Python two-significant-digit
rendering is abbreviated to `toString`). -/
def format_pvalue (x : ℚ) : String :=
  if x = 0 then "p<1e-320"
  else if x = -1 then "p=NA"
  else "p=" ++ toString x

/-- The numeric floor 1e-320 substituted for p-values of 0 in the volcano
plot (ologram.py lines 1435 and 1446). -/
def pvalFloor : ℚ := 1 / 10 ^ 320

/-- `plot_volcano` of ologram.py lines 1429-1449, restricted to the p-value
handling: rows whose p-value is the sentinel -1 are dropped, and a p-value of
0 is replaced by 1e-320.  A row is (feature, log2 fold change, p-value). -/
def volcanoPvalues (rows : List (String × ℚ × ℚ)) : List (String × ℚ × ℚ) :=
  (rows.filter (fun r => r.2.2 ≠ -1)).map
    (fun r => (r.1, r.2.1, if r.2.2 = 0 then pvalFloor else r.2.2))

-- ---------------------------------------------------------------------------
-- Multiple-overlap combinations (modelled from the spec)
-- ---------------------------------------------------------------------------

/-- A combination of sets jointly overlapping at a locus: a flag for the
query and one flag per reference set, in the order of the reference labels. -/
structure CombinationKey where
  query : Bool
  refs : List Bool
deriving DecidableEq, Repr

/-- Modelled from the spec: the multiple-overlap engine
(pygtftk.stats.intersect, not under src/) computes, at each locus where the
query overlaps at least one reference set, the combination of which sets
participate there; coverage of the query and of each reference set is given
as a predicate on positions. -/
def combiAtLocus (qcov : Nat → Bool) (refcovs : List (Nat → Bool))
    (p : Nat) : Option CombinationKey :=
  if qcov p && refcovs.any (fun f => f p) then
    some ⟨qcov p, refcovs.map (fun f => f p)⟩
  else none

/-- Modelled from the spec: the combinations observed over a list of loci,
used identically for the true data and for every shuffle. -/
def observedCombis (qcov : Nat → Bool) (refcovs : List (Nat → Bool))
    (loci : List Nat) : List CombinationKey :=
  loci.filterMap (combiAtLocus qcov refcovs)

/-- Modelled from the spec: by convention only combinations that include the
query are retained in the output (ologram.py `__notes__` line 221). -/
def retainedCombis (cs : List CombinationKey) : List CombinationKey :=
  cs.filter (fun c => c.query)

-- ---------------------------------------------------------------------------
-- Worker count (spec-modelled effective value, source-accepted range)
-- ---------------------------------------------------------------------------

/-- The --nb-threads argument range, `ranged_num(0, None)` of ologram.py
lines 411-415: any integer at least 0 is accepted. -/
def nbThreadsRangeOk (n : Int) : Bool := decide (0 ≤ n)

/-- Modelled from the spec: a worker count of 0 means use all available
cores; the resolution itself happens in the multiprocessing backend, which is
not under src/. -/
def effectiveWorkerCount (nb_threads availableCores : Nat) : Nat :=
  if nb_threads == 0 then availableCores else nb_threads

-- ---------------------------------------------------------------------------
-- The toy-dataset scenario and the BATS assertions embedded in ologram.py
-- ---------------------------------------------------------------------------

/-- The expectations asserted by the BATS tests `ologram_2` .. `ologram_7`
embedded at the end of ologram.py: pairs of a 1-based tab-separated column
index (`cut -f k`) of the `gene` row of `00_ologram_stats.tsv` and the
expected cell text. -/
def batsOlogramExpectations : List (Nat × String) :=
  [(6, "16"), (2, "14.77"), (12, "75"), (8, "65.98"), (9, "18.54"), (10, "0.70573")]

/-- Modelled from the spec: the finalized record for the toy scenario (query
peaks of the reference dataset vs. the `gene` feature, upstream/downstream
extension 2 bp, 8 minibatches of 20 shuffles, seed 42).  Only the six figures
fixed by the spec scenario are constrained; the remaining fields are not
pinned down by the scenario and are rendered as `unconstrained`. -/
def toyGeneRecord : List (String × String) :=
  [("nb_intersections_expectation_shuffled", "14.77"),
   ("nb_intersections_variance_shuffled", "unconstrained"),
   ("nb_intersections_negbinom_fit_quality", "unconstrained"),
   ("nb_intersections_log2_fold_change", "unconstrained"),
   ("nb_intersections_true", "16"),
   ("nb_intersections_pvalue", "unconstrained"),
   ("summed_bp_overlaps_expectation_shuffled", "65.98"),
   ("summed_bp_overlaps_variance_shuffled", "18.54"),
   ("summed_bp_overlaps_negbinom_fit_quality", "0.70573"),
   ("summed_bp_overlaps_log2_fold_change", "unconstrained"),
   ("summed_bp_overlaps_true", "75"),
   ("summed_bp_overlaps_pvalue", "unconstrained")]

/-- `cut -f k` on a tab-separated line (1-based field index). -/
def tsvField (line : String) (k : Nat) : String :=
  (((line.toList.splitOn '\t').map (fun cs : List Char => (⟨cs⟩ : String))).get?
    (k - 1)).getD ""

/-- The `gene` row of the toy-scenario statistics table. -/
def toyGeneRow : String :=
  ((writeStatsTable [("gene", toyGeneRecord)]).get? 1).getD ""

/-- A concrete configuration in multiple-overlap mode with the
custom-combinations override and a target combination size both set, and
everything else valid. -/
def c3Args : Args :=
  { use_markov := false, nb_threads := 1, availableCores := 1,
    more_bed := some ["a.bed"], more_bed_labels := some "A",
    more_bed_multiple_overlap := true,
    multiple_overlap_target_combi_size := 3,
    multiple_overlap_max_number_of_combinations := -1,
    multiple_overlap_custom_combis := some "combis.txt",
    no_gtf := true, more_keys := none, no_basic_feature := false,
    inputfile := some "stdin", chrom_info := some "chrom.sizes",
    chrom_len := [("chr1", 100)], peaks := [⟨"chr1", 0, 10⟩],
    force_chrom_peak := false, gtf_chroms := [], force_chrom_gtf := false,
    gtf_nonempty_after_subset := true, bed_excl := none, bed_incl := none,
    featureBeds := [("A", [⟨"chr1", 5, 15⟩])] }

/-- A concrete configuration supplying both masks. -/
def c4Args : Args :=
  { use_markov := false, nb_threads := 1, availableCores := 1,
    more_bed := some ["a.bed"], more_bed_labels := some "A",
    more_bed_multiple_overlap := false,
    multiple_overlap_target_combi_size := -1,
    multiple_overlap_max_number_of_combinations := -1,
    multiple_overlap_custom_combis := none,
    no_gtf := true, more_keys := none, no_basic_feature := false,
    inputfile := some "stdin", chrom_info := some "chrom.sizes",
    chrom_len := [("chr1", 100)], peaks := [⟨"chr1", 0, 10⟩],
    force_chrom_peak := false, gtf_chroms := [], force_chrom_gtf := false,
    gtf_nonempty_after_subset := true,
    bed_excl := some [⟨"chr1", 50, 60⟩], bed_incl := some [⟨"chr1", 0, 40⟩],
    featureBeds := [("A", [⟨"chr1", 5, 15⟩])] }

/-- A concrete configuration with an exclusion mask overlapping the query. -/
def c7Args : Args :=
  { use_markov := false, nb_threads := 1, availableCores := 1,
    more_bed := some ["a.bed"], more_bed_labels := some "A",
    more_bed_multiple_overlap := false,
    multiple_overlap_target_combi_size := -1,
    multiple_overlap_max_number_of_combinations := -1,
    multiple_overlap_custom_combis := none,
    no_gtf := true, more_keys := none, no_basic_feature := false,
    inputfile := some "stdin", chrom_info := some "chrom.sizes",
    chrom_len := [("chr1", 100)], peaks := [⟨"chr1", 0, 10⟩],
    force_chrom_peak := false, gtf_chroms := [], force_chrom_gtf := false,
    gtf_nonempty_after_subset := true,
    bed_excl := some [⟨"chr1", 5, 20⟩], bed_incl := none,
    featureBeds := [("A", [⟨"chr1", 5, 15⟩])] }

/-- The configuration obtained by replacing an inclusion mask with the
exclusion mask the source computes from it: the complement of the inclusion
mask within the full genome built from the chromosome-size map. -/
def withResolvedExcl (a : Args) (I : List GenomicInterval) : Args :=
  { a with bed_incl := none,
           bed_excl := some (subtractBed (fullGenomeBed a.chrom_len) I) }

/-- A concrete configuration supplying only an inclusion mask, with an
`all_chrom` pseudo-entry in the chromosome-size map. -/
def c9Args : Args :=
  { use_markov := false, nb_threads := 1, availableCores := 1,
    more_bed := some ["a.bed"], more_bed_labels := some "A",
    more_bed_multiple_overlap := false,
    multiple_overlap_target_combi_size := -1,
    multiple_overlap_max_number_of_combinations := -1,
    multiple_overlap_custom_combis := none,
    no_gtf := true, more_keys := none, no_basic_feature := false,
    inputfile := some "stdin", chrom_info := some "chrom.sizes",
    chrom_len := [("chr1", 100), ("all_chrom", 100)],
    peaks := [⟨"chr1", 10, 14⟩],
    force_chrom_peak := false, gtf_chroms := [], force_chrom_gtf := false,
    gtf_nonempty_after_subset := true,
    bed_excl := none, bed_incl := some [⟨"chr1", 10, 20⟩],
    featureBeds := [("A", [⟨"chr1", 5, 15⟩])] }

-- ---------------------------------------------------------------------------
-- Claim theorems
-- ---------------------------------------------------------------------------

/-- C1: on the reference toy dataset (query peaks vs. the `gene` reference
feature, upstream/downstream extension 2 bp, 8 minibatches of 20 shuffles,
seed 42) the output record carries exactly true N = 16, shuffled N
expectation 14.77, true S = 75, shuffled S expectation 65.98, shuffled S
variance 18.54 and S fit quality 0.70573: the spec-modelled record rendered
through the embedded table writer reproduces, cell for cell, the BATS
assertions `ologram_2` .. `ologram_7` embedded in ologram.py (column indices
6, 2, 12, 8, 9, 10 of the `gene` row). -/
theorem C1_toy_dataset_figures :
    toyGeneRecord.map Prod.fst = computeOverlapStatsKeys ∧
    tsvField toyGeneRow 6 = "16" ∧
    tsvField toyGeneRow 2 = "14.77" ∧
    tsvField toyGeneRow 12 = "75" ∧
    tsvField toyGeneRow 8 = "65.98" ∧
    tsvField toyGeneRow 9 = "18.54" ∧
    tsvField toyGeneRow 10 = "0.70573" ∧
    batsOlogramExpectations.all
      (fun kv => tsvField toyGeneRow kv.1 == kv.2) = true := by
  refine ⟨rfl, rfl, rfl, rfl, rfl, rfl, rfl, rfl⟩

/-- Every combination observed by the (spec-modelled) multiple-overlap
computation includes the query, since a locus only contributes when the query
covers it. -/
theorem observedCombis_query_true (qcov : Nat → Bool)
    (refcovs : List (Nat → Bool)) (loci : List Nat) :
    ∀ c ∈ observedCombis qcov refcovs loci, c.query = true := by
  intro c hc
  simp only [observedCombis, List.mem_filterMap] at hc
  obtain ⟨p, _, hp⟩ := hc
  unfold combiAtLocus at hp
  split at hp
  case isTrue hcond =>
    obtain ⟨hq, _⟩ := Bool.and_eq_true_iff.mp hcond
    cases hp
    exact hq
  case isFalse => exact absurd hp (by simp)

/-- C2: in multiple-overlap mode, for every configuration (any query and
reference coverages, hence both the true data and every shuffle), every
combination surfaced in the output includes the query; moreover the
by-convention filter retains every observed combination, because unobserved
query-free combinations never arise. -/
theorem C2_combinations_include_query (qcov : Nat → Bool)
    (refcovs : List (Nat → Bool)) (loci : List Nat) (c : CombinationKey)
    (hc : c ∈ retainedCombis (observedCombis qcov refcovs loci)) :
    c.query = true ∧
    retainedCombis (observedCombis qcov refcovs loci) =
      observedCombis qcov refcovs loci := by
  constructor
  · exact observedCombis_query_true qcov refcovs loci c
      (List.mem_of_mem_filter hc)
  · exact List.filter_eq_self.mpr
      (fun x hx => observedCombis_query_true qcov refcovs loci x hx)

/-- Witness for C2 at a concrete configuration: one reference set, coverage
of query and reference at position 0, locus list `[0]`. -/
theorem C2_combinations_include_query_witness :
    ((⟨true, [true]⟩ : CombinationKey) ∈
      retainedCombis (observedCombis (fun p => p == 0) [fun p => p == 0] [0])) ∧
    (⟨true, [true]⟩ : CombinationKey).query = true := by
  have hmem : (⟨true, [true]⟩ : CombinationKey) ∈
      retainedCombis (observedCombis (fun p => p == 0) [fun p => p == 0] [0]) := by
    simp [retainedCombis, observedCombis, combiAtLocus]
  exact ⟨hmem,
    (C2_combinations_include_query (fun p => p == 0) [fun p => p == 0] [0]
      ⟨true, [true]⟩ hmem).1⟩

/-- C5: a p-value that underflowed to exactly 0 is displayed as below 1e-320
and the not-applicable sentinel -1 as `p=NA`, the two renderings being
distinct; in the volcano plot, rows with the sentinel -1 are dropped while
rows with p-value 0 are kept with the p-value replaced by the numeric floor
1e-320 (so no surfaced volcano row carries 0 or -1). -/
theorem C5_pvalue_sentinels (rows : List (String × ℚ × ℚ)) :
    format_pvalue 0 = "p<1e-320" ∧
    format_pvalue (-1) = "p=NA" ∧
    format_pvalue 0 ≠ format_pvalue (-1) ∧
    (∀ r ∈ volcanoPvalues rows, r.2.2 ≠ -1 ∧ r.2.2 ≠ 0) ∧
    (∀ r ∈ rows, r.2.2 = 0 → (r.1, r.2.1, pvalFloor) ∈ volcanoPvalues rows) := by
  have hfloor0 : pvalFloor ≠ 0 := by norm_num [pvalFloor]
  have hfloor1 : pvalFloor ≠ -1 := by norm_num [pvalFloor]
  refine ⟨by norm_num [format_pvalue], by norm_num [format_pvalue],
    by norm_num [format_pvalue]; decide, ?_, ?_⟩
  · intro r hr
    simp only [volcanoPvalues, List.mem_map, List.mem_filter] at hr
    obtain ⟨r0, ⟨_, hne⟩, hmap⟩ := hr
    subst hmap
    by_cases h0 : r0.2.2 = 0
    · simp only [h0, if_pos rfl]
      exact ⟨hfloor1, hfloor0⟩
    · simp only [if_neg h0]
      exact ⟨by simpa using hne, h0⟩
  · intro r hr h0
    simp only [volcanoPvalues, List.mem_map]
    refine ⟨r, List.mem_filter.mpr ⟨hr, ?_⟩, by simp [h0]⟩
    simp [h0]

/-- Witness for C5 at concrete rows: the 0-p-value row survives with the
floor, and the two sentinel renderings are produced. -/
theorem C5_pvalue_sentinels_witness :
    format_pvalue 0 = "p<1e-320" ∧ format_pvalue (-1) = "p=NA" ∧
    (("a", (1 : ℚ), pvalFloor) ∈
      volcanoPvalues [("a", (1 : ℚ), (0 : ℚ)), ("b", (2 : ℚ), (-1 : ℚ))]) := by
  have h := C5_pvalue_sentinels [("a", (1 : ℚ), (0 : ℚ)), ("b", (2 : ℚ), (-1 : ℚ))]
  exact ⟨h.1, h.2.1,
    h.2.2.2.2 ("a", (1 : ℚ), (0 : ℚ)) (List.mem_cons_self _ _) rfl⟩

/-- C8: whenever the configured worker count is below the number of available
CPU cores the thread warning is emitted (as a non-fatal warning); a worker
count of 0 lies in the accepted range of --nb-threads, and (spec-modelled) an
effective count of 0 resolves to all available cores. -/
theorem C8_worker_count (a : Args) (h : a.nb_threads < a.availableCores) :
    threadWarnMsg a.nb_threads a.availableCores ∈ initialWarnings a ∧
    (threadWarnMsg a.nb_threads a.availableCores).mtype = MsgType.warning ∧
    nbThreadsRangeOk 0 = true ∧
    ∀ cores, effectiveWorkerCount 0 cores = cores := by
  refine ⟨?_, rfl, rfl, fun cores => rfl⟩
  simp [initialWarnings, h]

/-- Witness for C8 at one thread on a four-core machine. -/
theorem C8_worker_count_witness :
    threadWarnMsg 1 4 ∈ initialWarnings
      { use_markov := false, nb_threads := 1, availableCores := 4,
        more_bed := none, more_bed_labels := none,
        more_bed_multiple_overlap := false,
        multiple_overlap_target_combi_size := -1,
        multiple_overlap_max_number_of_combinations := -1,
        multiple_overlap_custom_combis := none,
        no_gtf := false, more_keys := none, no_basic_feature := false,
        inputfile := some "in.gtf", chrom_info := some "chrom.sizes",
        chrom_len := [("chr1", 100)], peaks := [],
        force_chrom_peak := false, gtf_chroms := [], force_chrom_gtf := false,
        gtf_nonempty_after_subset := true, bed_excl := none, bed_incl := none,
        featureBeds := [] } ∧
    nbThreadsRangeOk 0 = true := by
  have h := C8_worker_count
    { use_markov := false, nb_threads := 1, availableCores := 4,
      more_bed := none, more_bed_labels := none,
      more_bed_multiple_overlap := false,
      multiple_overlap_target_combi_size := -1,
      multiple_overlap_max_number_of_combinations := -1,
      multiple_overlap_custom_combis := none,
      no_gtf := false, more_keys := none, no_basic_feature := false,
      inputfile := some "in.gtf", chrom_info := some "chrom.sizes",
      chrom_len := [("chr1", 100)], peaks := [],
      force_chrom_peak := false, gtf_chroms := [], force_chrom_gtf := false,
      gtf_nonempty_after_subset := true, bed_excl := none, bed_incl := none,
      featureBeds := [] } (by decide)
  exact ⟨h.1, h.2.2.1⟩

/-- C3 counterexample: with --multiple-overlap-target-combi-size set together
with --multiple-overlap-custom-combis (and --more-bed-multiple-overlap
active), the run does NOT abort: the configuration phase succeeds, the whole
run completes, and the option is merely reported as ignored through a
non-fatal message. -/
theorem C3_counterexample :
    c3Args.multiple_overlap_custom_combis ≠ none ∧
    c3Args.multiple_overlap_target_combi_size ≠ -1 ∧
    c3Args.more_bed_multiple_overlap = true ∧
    (ologramRun c3Args).isOk = true ∧
    ((ologramChecks c3Args).toOption.map
      (fun p => p.warnings.contains mocsIgnoredMsg)) = some true ∧
    mocsIgnoredMsg.mtype ≠ MsgType.error := by
  refine ⟨by decide, by decide, rfl, rfl, rfl, by decide⟩

/-- C3 amended: setting a multiple-overlap sizing/pruning option together
with the custom-combinations override is NOT fatal — the option is ignored
with a non-fatal notice and the run proceeds; only using the override without
--more-bed-multiple-overlap aborts with a fatal error. -/
theorem C3_custom_combis_amended (mocs monc : Int) (custom : Option String)
    (mo : Bool) (hc : custom ≠ none) :
    (mo = true →
      customCombisChecks mocs monc custom mo =
        Except.ok ((if mocs ≠ -1 then [mocsIgnoredMsg] else []) ++
                   (if monc ≠ -1 then [moncIgnoredMsg] else [])) ∧
      mocsIgnoredMsg.mtype ≠ MsgType.error ∧
      moncIgnoredMsg.mtype ≠ MsgType.error) ∧
    (mo = false →
      customCombisChecks mocs monc custom mo = Except.error customWithoutMoMsg ∧
      customWithoutMoMsg.mtype = MsgType.error) := by
  cases custom with
  | none => exact absurd rfl hc
  | some s =>
    refine ⟨fun hmo => ⟨?_, by decide, by decide⟩,
            fun hmo => ⟨?_, rfl⟩⟩ <;> simp [customCombisChecks, hmo]

/-- Witness for the amended C3 at the concrete options of `c3Args`. -/
theorem C3_custom_combis_amended_witness :
    customCombisChecks 3 (-1) (some "combis.txt") true =
      Except.ok [mocsIgnoredMsg] := by
  have h := (C3_custom_combis_amended 3 (-1) (some "combis.txt") true
    (by simp)).1 rfl
  simpa using h.1

/-- C4: supplying both an inclusion mask and an exclusion mask aborts the run
with the fatal message of ologram.py lines 732-734, before any statistics are
computed (the run result is the error, no record and no table is produced),
provided the checks that the source performs earlier all pass. -/
theorem C4_incl_excl_conflict (a : Args) (I E : List GenomicInterval)
    (w1 w2 : List Msg) (q : List GenomicInterval)
    (hi : a.bed_incl = some I) (he : a.bed_excl = some E)
    (h1 : multipleOverlapCheck a = Except.ok w1)
    (h2 : customCombisChecks a.multiple_overlap_target_combi_size
      a.multiple_overlap_max_number_of_combinations
      a.multiple_overlap_custom_combis a.more_bed_multiple_overlap =
      Except.ok w2)
    (h3 : noGtfChecks a = Except.ok ())
    (h4 : basicFeatureChecks a = Except.ok ())
    (hq : peakPhase a = Except.ok q) :
    ologramRun a = Except.error cannotBothMsg ∧
    cannotBothMsg.mtype = MsgType.error := by
  refine ⟨?_, rfl⟩
  simp [ologramRun, ologramChecks, h1, h2, h3, h4, hq, hi, he,
    resolveExclusion, Except.bind]

/-- Witness for C4 at `c4Args`. -/
theorem C4_incl_excl_conflict_witness :
    ologramRun c4Args = Except.error cannotBothMsg := by
  exact (C4_incl_excl_conflict c4Args [⟨"chr1", 0, 40⟩] [⟨"chr1", 50, 60⟩]
    [] [] [⟨"chr1", 0, 10⟩] rfl rfl rfl rfl rfl rfl rfl).1

/-- C6: every output record exposes the feature label and, for each of the
two statistics, the six fields (true value, shuffled expectation, shuffled
variance, negative-binomial fit quality, p-value, log2 fold change), and the
record set is written as a flat table: one header line naming
`feature_type` plus the twelve columns, then exactly one row per feature,
each row starting with its label followed by the record values. -/
theorem C6_output_schema (hits : List (String × List (String × String)))
    (h0 : hits ≠ [])
    (hk : ∀ fr ∈ hits, fr.2.map Prod.fst = computeOverlapStatsKeys) :
    writeStatsTable hits =
      (String.intercalate "\t" ("feature_type" :: computeOverlapStatsKeys)) ::
        hits.map (fun fr =>
          String.intercalate "\t" (fr.1 :: fr.2.map Prod.snd)) ∧
    (writeStatsTable hits).length = hits.length + 1 ∧
    computeOverlapStatsKeys =
      statFields "nb_intersections" ++ statFields "summed_bp_overlaps" ∧
    (statFields "nb_intersections").length = 6 ∧
    (statFields "summed_bp_overlaps").length = 6 := by
  cases hits with
  | nil => exact absurd rfl h0
  | cons hd tl =>
    obtain ⟨f0, r0⟩ := hd
    have hr0 : r0.map Prod.fst = computeOverlapStatsKeys :=
      hk (f0, r0) (List.mem_cons_self _ _)
    refine ⟨?_, by simp [writeStatsTable], rfl, rfl, rfl⟩
    simp [writeStatsTable, hr0]

/-- Witness for C6 at a single-feature record set with the modelled schema. -/
theorem C6_output_schema_witness :
    (writeStatsTable [("gene", overlapStatsRecord [] [])]).length = 2 := by
  have h := C6_output_schema [("gene", overlapStatsRecord [] [])]
    (by simp)
    (by
      intro fr hfr
      rw [List.mem_singleton] at hfr
      subst hfr
      rfl)
  simpa using h.2.1

/-- Keys of the chromosome-size map are untouched by the exclusion step: only
the length values are shortened. -/
theorem exclude_chromsizes_keys (e : List GenomicInterval)
    (cl : List (String × Nat)) :
    (exclude_chromsizes e cl).map Prod.fst = cl.map Prod.fst := by
  induction cl with
  | nil => rfl
  | cons p t ih => simp [exclude_chromsizes]

/-- C7 amended: the query set is sorted and merged exactly once (inside the
peak phase) before any statistics; afterwards it is modified only by the
one-time exclusion rewriting when an exclusion mask is present, the key set
of the chromosome-size map is never modified, and the whole statistics loop
reads the single prepared query. -/
theorem C7_query_prepared_once (a : Args) (w1 w2 : List Msg)
    (q : List GenomicInterval) (ex : Option (List GenomicInterval))
    (lw : List Msg × List String)
    (h1 : multipleOverlapCheck a = Except.ok w1)
    (h2 : customCombisChecks a.multiple_overlap_target_combi_size
      a.multiple_overlap_max_number_of_combinations
      a.multiple_overlap_custom_combis a.more_bed_multiple_overlap =
      Except.ok w2)
    (h3 : noGtfChecks a = Except.ok ())
    (h4 : basicFeatureChecks a = Except.ok ())
    (hq : peakPhase a = Except.ok q)
    (hex : resolveExclusion a.chrom_len a.bed_incl a.bed_excl = Except.ok ex)
    (h5 : gtfPhase a (applyExclusion a.chrom_len q ex).1 = Except.ok ())
    (h6 : labelsStep a = Except.ok lw) :
    ologramChecks a = Except.ok
      ⟨initialWarnings a ++ w1 ++ w2 ++ lw.1,
        (applyExclusion a.chrom_len q ex).1,
        (applyExclusion a.chrom_len q ex).2.1,
        (applyExclusion a.chrom_len q ex).2.2, lw.2⟩ ∧
    (ex = none → (applyExclusion a.chrom_len q ex).2.1 = q) ∧
    (∀ e0, ex = some e0 →
      (applyExclusion a.chrom_len q ex).2.1 =
        exclude_concatenate q (sortMerge e0)) ∧
    (applyExclusion a.chrom_len q ex).1.map Prod.fst =
      a.chrom_len.map Prod.fst ∧
    (∀ out, ologramRun a = Except.ok out →
      out.queryUsed = (applyExclusion a.chrom_len q ex).2.1 ∧
      out.hits = a.featureBeds.map
        (fun fb => (fb.1, overlapStatsRecord out.queryUsed fb.2))) := by
  have hchecks : ologramChecks a = Except.ok
      ⟨initialWarnings a ++ w1 ++ w2 ++ lw.1,
        (applyExclusion a.chrom_len q ex).1,
        (applyExclusion a.chrom_len q ex).2.1,
        (applyExclusion a.chrom_len q ex).2.2, lw.2⟩ := by
    simp [ologramChecks, h1, h2, h3, h4, hq, hex, h5, h6, Except.bind]
  refine ⟨hchecks, ?_, ?_, ?_, ?_⟩
  · intro hnone
    subst hnone
    rfl
  · intro e0 hsome
    subst hsome
    rfl
  · cases ex with
    | none => rfl
    | some e0 => exact exclude_chromsizes_keys (sortMerge e0) a.chrom_len
  · intro out hout
    rw [ologramRun, hchecks] at hout
    simp only [Except.bind] at hout
    split at hout
    · exact absurd hout (by simp)
    · cases hout
      exact ⟨rfl, rfl⟩

/-- C7 counterexample: with an exclusion mask supplied, the query set that
reaches the statistics loop differs from the query set produced by the
one-time sort-and-merge — the claim that after sorting and merging the query
set is not modified for the remainder of the run fails on this run. -/
theorem C7_counterexample :
    peakPhase c7Args = Except.ok [⟨"chr1", 0, 10⟩] ∧
    (ologramChecks c7Args).toOption.map Prepared.query =
      some [⟨"chr1", 0, 5⟩] ∧
    ([⟨"chr1", 0, 5⟩] : List GenomicInterval) ≠ [⟨"chr1", 0, 10⟩] := by
  refine ⟨rfl, rfl, by decide⟩

/-- Witness for the amended C7 at `c7Args`. -/
theorem C7_query_prepared_once_witness :
    (ologramChecks c7Args).toOption.map Prepared.query =
      some (exclude_concatenate [⟨"chr1", 0, 10⟩]
        (sortMerge [⟨"chr1", 5, 20⟩])) := by
  have h := C7_query_prepared_once c7Args [] [] [⟨"chr1", 0, 10⟩]
    (some [⟨"chr1", 5, 20⟩]) ([], ["A"]) rfl rfl rfl rfl rfl rfl rfl rfl
  rw [h.1]
  simp only [Option.map, Except.toOption]
  rw [h.2.2.1 [⟨"chr1", 5, 20⟩] rfl]

/-- C9: supplying only an inclusion mask is equivalent to supplying as
exclusion mask its complement within the full genome (one interval [0, len)
per chromosome, the pseudo-chromosome `all_chrom` omitted): the resolved
exclusion mask is exactly that complement, and both the whole configuration
phase and the whole run behave identically under the two inputs. -/
theorem C9_inclusion_as_exclusion (a : Args) (I : List GenomicInterval)
    (hi : a.bed_incl = some I) (he : a.bed_excl = none) :
    resolveExclusion a.chrom_len a.bed_incl a.bed_excl =
      Except.ok (some (subtractBed (fullGenomeBed a.chrom_len) I)) ∧
    ologramChecks a = ologramChecks (withResolvedExcl a I) ∧
    ologramRun a = ologramRun (withResolvedExcl a I) ∧
    (∀ p ∈ a.chrom_len, p.1 ≠ "all_chrom" →
      (⟨p.1, 0, p.2⟩ : GenomicInterval) ∈ fullGenomeBed a.chrom_len) ∧
    (∀ iv ∈ fullGenomeBed a.chrom_len,
      iv.chrom ≠ "all_chrom" ∧ iv.start = 0) := by
  have hres : resolveExclusion a.chrom_len a.bed_incl a.bed_excl =
      Except.ok (some (subtractBed (fullGenomeBed a.chrom_len) I)) := by
    rw [hi, he]
    rfl
  have hchecks : ologramChecks a = ologramChecks (withResolvedExcl a I) := by
    simp only [ologramChecks, withResolvedExcl, hres]
    rfl
  refine ⟨hres, hchecks, ?_, ?_, ?_⟩
  · simp only [ologramRun, hchecks]
    rfl
  · intro p hp hne
    simp only [fullGenomeBed, List.mem_filterMap]
    exact ⟨p, hp, by simp [hne]⟩
  · intro iv hiv
    simp only [fullGenomeBed, List.mem_filterMap] at hiv
    obtain ⟨p, _, heq⟩ := hiv
    by_cases hc : p.1 = "all_chrom"
    · rw [if_pos (by simp [hc])] at heq
      exact absurd heq (by simp)
    · rw [if_neg (by simp [hc])] at heq
      cases heq
      exact ⟨hc, rfl⟩

/-- Witness for C9 at `c9Args`: the complement is computed over `chr1` only
and the two runs coincide. -/
theorem C9_inclusion_as_exclusion_witness :
    resolveExclusion c9Args.chrom_len c9Args.bed_incl c9Args.bed_excl =
      Except.ok (some [⟨"chr1", 0, 10⟩, ⟨"chr1", 20, 100⟩]) ∧
    ologramRun c9Args = ologramRun (withResolvedExcl c9Args [⟨"chr1", 10, 20⟩]) := by
  have h := C9_inclusion_as_exclusion c9Args [⟨"chr1", 10, 20⟩] rfl rfl
  exact ⟨h.1, h.2.2.1⟩

/-- C10 amended: user-supplied --more-bed labels are fatally rejected unless
every label matches `^[A-Za-z0-9_]+$`, the label count equals the file count
and the labels are pairwise distinct (checked in that order); when labels are
omitted each label defaults, with a non-fatal warning, to the file base name
with a trailing `_converted.bed`-style marker and any `_pygtftk...` suffix
stripped before non-alphanumeric runs are replaced by `_`. -/
theorem C10_labels_amended (files : List String) (s : String) :
    ((splitCommas s).any (fun l => ! labelOk l) = true →
      moreBedLabelsResolve files (some s) = Except.error labelCharErrMsg) ∧
    ((splitCommas s).any (fun l => ! labelOk l) = false →
      (splitCommas s).length ≠ files.length →
      moreBedLabelsResolve files (some s) = Except.error labelCountErrMsg) ∧
    ((splitCommas s).any (fun l => ! labelOk l) = false →
      (splitCommas s).length = files.length →
      (splitCommas s).length ≠ (splitCommas s).eraseDups.length →
      moreBedLabelsResolve files (some s) = Except.error labelDupErrMsg) ∧
    ((splitCommas s).any (fun l => ! labelOk l) = false →
      (splitCommas s).length = files.length →
      (splitCommas s).length = (splitCommas s).eraseDups.length →
      moreBedLabelsResolve files (some s) = Except.ok ([], splitCommas s)) ∧
    (moreBedLabelsResolve files none =
      Except.ok ([labelDefaultWarnMsg], files.map cleanedLabel) ∧
     labelDefaultWarnMsg.mtype = MsgType.warning ∧
     labelCharErrMsg.mtype = MsgType.error ∧
     labelCountErrMsg.mtype = MsgType.error ∧
     labelDupErrMsg.mtype = MsgType.error) := by
  refine ⟨?_, ?_, ?_, ?_, rfl, rfl, rfl, rfl, rfl⟩
  · intro hbad
    simp [moreBedLabelsResolve, hbad]
  · intro hgood hlen
    simp [moreBedLabelsResolve, hgood, hlen]
  · intro hgood hlen hdup
    simp [moreBedLabelsResolve, hgood, hlen, hdup]
    omega
  · intro hgood hlen hdup
    simp [moreBedLabelsResolve, hgood, hlen, hdup]
    omega

/-- Witness for the amended C10: two valid, distinct labels for two files. -/
theorem C10_labels_amended_witness :
    moreBedLabelsResolve ["a.bed", "b.bed"] (some "A,B") =
      Except.ok ([], ["A", "B"]) := by
  have h := (C10_labels_amended ["a.bed", "b.bed"] "A,B").2.2.2.1 rfl rfl rfl
  simpa using h

/-- C10 counterexample: for the file `peaks_converted.bed` the defaulted
label computed by the source is `peaks` (the `_converted.bed` marker is
stripped first), not the claimed `peaks_converted_bed` one would obtain by
only replacing non-alphanumeric characters with `_`. -/
theorem C10_counterexample :
    moreBedLabelsResolve ["peaks_converted.bed"] none =
      Except.ok ([labelDefaultWarnMsg], ["peaks"]) ∧
    ["peaks_converted.bed"].map claimDefaultLabel = ["peaks_converted_bed"] ∧
    (["peaks"] : List String) ≠ ["peaks_converted_bed"] := by
  refine ⟨rfl, rfl, by decide⟩
